import Mathlib

/-!
Shallow embedding of the amenity-proximity aggregation core of the
zillow-scraper repository, covering the two analyzer variants:

* `src/amenity_analyzer.py` — the rated-composite variant
  (`AmenityAnalyzer`): Google-Places-backed category search, per-category
  count / average rating / composite score, overall score.
* `src/detailed_amenity_analyzer.py` — the detailed variant
  (`DetailedAmenityAnalyzer`): Nominatim geocoding with fallback, one
  Overpass query per category, haversine distances, per-category count and
  closest distance.

Modelling conventions: Python floats are modelled as exact rationals `ℚ`
for provider data and scoring, and as reals `ℝ` for the transcendental
haversine computation; Python `round(x, n)` (round-half-to-even) is
modelled by `pyRound`; a fallible call returns `Option` or an explicit
outcome type; external HTTP providers are passed in as oracle functions,
and the sequence of external requests a routine issues is returned
alongside its result so that call-count properties can be stated.
-/

/-- Python `round` rounds half to even (banker's rounding).
`roundHalfEven y` is the integer nearest to `y`, ties resolved to the even
integer. -/
def roundHalfEven {α : Type} [LinearOrderedField α] [FloorRing α] (y : α) : ℤ :=
  if y - ⌊y⌋ < 1/2 then ⌊y⌋
  else if y - ⌊y⌋ > 1/2 then ⌊y⌋ + 1
  else if ⌊y⌋ % 2 = 0 then ⌊y⌋ else ⌊y⌋ + 1

/-- Python `round(x, n)`: round `x` to `n` decimal digits, half to even. -/
def pyRound {α : Type} [LinearOrderedField α] [FloorRing α] (x : α) (n : ℕ) : α :=
  (roundHalfEven (x * 10 ^ n) : α) / 10 ^ n

/-- Evaluation rule for `roundHalfEven` when the fractional part is below
one half. -/
theorem roundHalfEven_of_lt {α : Type} [LinearOrderedField α] [FloorRing α]
    (y : α) (f : ℤ) (h1 : (f : α) ≤ y) (h2 : y - f < 1/2) : roundHalfEven y = f := by
  have hf : ⌊y⌋ = f := Int.floor_eq_iff.mpr ⟨h1, by linarith⟩
  unfold roundHalfEven
  rw [hf, if_pos h2]

/-- Evaluation rule for `roundHalfEven` when the fractional part is above
one half. -/
theorem roundHalfEven_of_gt {α : Type} [LinearOrderedField α] [FloorRing α]
    (y : α) (f : ℤ) (h1 : (f : α) ≤ y) (h2 : y - f > 1/2) (h3 : y < f + 1) :
    roundHalfEven y = f + 1 := by
  have hf : ⌊y⌋ = f := Int.floor_eq_iff.mpr ⟨h1, h3⟩
  unfold roundHalfEven
  rw [hf, if_neg (by linarith), if_pos h2]

/-- `roundHalfEven` of a nonnegative value is nonnegative: both candidate
results are at least `⌊y⌋ ≥ 0`. -/
theorem roundHalfEven_nonneg {α : Type} [LinearOrderedField α] [FloorRing α]
    (y : α) (h : 0 ≤ y) : 0 ≤ roundHalfEven y := by
  have hf : (0 : ℤ) ≤ ⌊y⌋ := by positivity
  unfold roundHalfEven
  split_ifs <;> omega

/-- `pyRound` of a nonnegative value is nonnegative. -/
theorem pyRound_nonneg {α : Type} [LinearOrderedField α] [FloorRing α]
    (x : α) (n : ℕ) (h : 0 ≤ x) : 0 ≤ pyRound x n := by
  unfold pyRound
  have h1 : (0 : ℤ) ≤ roundHalfEven (x * 10 ^ n) :=
    roundHalfEven_nonneg _ (by positivity)
  have h2 : (0 : α) ≤ (roundHalfEven (x * 10 ^ n) : α) := by exact_mod_cast h1
  positivity

/-- A place returned by the rated provider (`search_nearby_amenities`):
the only attribute the aggregation reads is `a.get('rating', 0)`,
modelled as an optional rating. -/
structure Amenity where
  rating : Option ℚ
deriving DecidableEq

/-- `AmenityAnalyzer.amenity_categories` (src/amenity_analyzer.py lines
30-37): the ordered catalog mapping each category to its Google Places
search types. -/
def amenity_categories : List (String × List String) :=
  [("schools", ["school", "elementary_school", "secondary_school"]),
   ("gyms", ["gym", "fitness_center", "health"]),
   ("transport", ["subway_station", "bus_station", "train_station", "transit_station"]),
   ("parks", ["park", "amusement_park"]),
   ("groceries", ["grocery_or_supermarket", "supermarket", "food"]),
   ("restaurants", ["restaurant", "meal_takeaway", "cafe"])]

/-- The per-category collection loop of `analyze_property_amenities`
(src/amenity_analyzer.py lines 155-163): one `search_nearby_amenities`
call per amenity type, results extended into one list.  The second
component records the query issued by each external call, in order. -/
def collectCategoryAmenities (search : String → List Amenity)
    (types : List String) : List Amenity × List String :=
  types.foldl (fun acc t => (acc.1 ++ search t, acc.2 ++ [t])) ([], [])

/-- The per-category scoring step of `analyze_property_amenities`
(src/amenity_analyzer.py lines 165-176): emits
`(count, avg_rating rounded to 2, round(count*0.3 + avg_rating*0.7, 2))`,
or `(0, 0, 0)` for an empty category. -/
def categoryAggregate (pts : List Amenity) : ℕ × ℚ × ℚ :=
  if pts.isEmpty then (0, 0, 0)
  else
    let avg_rating := (pts.map (fun a => a.rating.getD 0)).sum / pts.length
    (pts.length, pyRound avg_rating 2,
      pyRound ((pts.length : ℚ) * (3/10) + avg_rating * (7/10)) 2)

/-- The result of one `analyze_property_amenities` call
(src/amenity_analyzer.py lines 139-183):

* `geocodeError` models the early return `{'error': 'Could not geocode
  address'}` (line 148) — a record with no per-category keys;
* `crash` models an exception escaping the call (with an empty catalog the
  overall-score division at line 180 raises `ZeroDivisionError`);
* `scores perCategory overall` models the normal amenity-scores record:
  one `(category, count, avg_rating, score)` entry per catalog category,
  in catalog order, plus `overall_amenity_score`. -/
inductive RatedOutcome where
  | geocodeError : RatedOutcome
  | crash : RatedOutcome
  | scores (perCategory : List (String × ℕ × ℚ × ℚ)) (overall : ℚ) : RatedOutcome
deriving DecidableEq

/-- The category keys present in an emitted rated record: only the
`scores` form carries per-category entries; the geocode-error record's
single key is `'error'`. -/
def ratedCategoryKeys : RatedOutcome → List String
  | .scores perCategory _ => perCategory.map Prod.fst
  | _ => []

/-- `AmenityAnalyzer.analyze_property_amenities`
(src/amenity_analyzer.py lines 139-183), with the geocoding outcome
(`extract_coordinates_from_address`) and the Places provider
(`search_nearby_amenities`, keyed by amenity type) passed in as oracles,
and the catalog (`self.amenity_categories`) as a parameter. -/
def analyze_property_amenities (catalog : List (String × List String))
    (coordinates : Option (ℚ × ℚ)) (search : String → List Amenity) : RatedOutcome :=
  match coordinates with
  | none => .geocodeError
  | some _ =>
    let amenity_scores := catalog.map (fun c =>
      (c.1, categoryAggregate (collectCategoryAmenities search c.2).1))
    let category_scores := amenity_scores.map (fun e => e.2.2.2)
    if category_scores.length = 0 then .crash
    else .scores amenity_scores (pyRound (category_scores.sum / category_scores.length) 2)

/-- An input row of `analyze_csv_properties`: the loop only reads
`row.get('address', '')`. -/
structure CsvRow where
  address : String
deriving DecidableEq

/-- The per-row loop of `AmenityAnalyzer.analyze_csv_properties`
(src/amenity_analyzer.py lines 195-208): rows whose address is empty are
skipped (`continue`, lines 199-200); each remaining row contributes the
result of one `analyze_property_amenities` call. -/
def analyze_csv_properties (geocode : String → Option (ℚ × ℚ))
    (search : String → List Amenity) (rows : List CsvRow) : List RatedOutcome :=
  rows.filterMap (fun row =>
    if row.address = "" then none
    else some (analyze_property_amenities amenity_categories (geocode row.address) search))

/-- The collection loop gathers exactly the concatenation of the
per-type search results, and issues exactly one query per type. -/
theorem collectCategoryAmenities_eq (search : String → List Amenity)
    (types : List String) :
    collectCategoryAmenities search types = (types.flatMap search, types) := by
  suffices h : ∀ (acc : List Amenity) (log : List String),
      types.foldl (fun acc t => (acc.1 ++ search t, acc.2 ++ [t])) (acc, log)
        = (acc ++ types.flatMap search, log ++ types) by
    simpa using h [] []
  induction types with
  | nil => intro acc log; simp
  | cons t ts ih =>
    intro acc log
    simp only [List.foldl_cons, ih, List.flatMap_cons, List.append_assoc,
      List.singleton_append, List.cons_append, List.nil_append]

/-- The aggregation step of the rated scenario from the spec: two points
rated `4.0` and `4.4` yield count `2`, average rating `4.2`, score `3.54`. -/
theorem categoryAggregate_scenario :
    categoryAggregate [⟨some 4⟩, ⟨some (22/5)⟩] = (2, 21/5, 177/50) := by
  simp only [categoryAggregate, List.isEmpty_cons, List.map_cons, List.map_nil,
    List.sum_cons, List.sum_nil, List.length_cons, List.length_nil, Option.getD_some]
  norm_num [pyRound]
  constructor
  · rw [roundHalfEven_of_lt _ 420 (by norm_num) (by norm_num)]
    norm_num
  · rw [roundHalfEven_of_lt _ 354 (by norm_num) (by norm_num)]
    norm_num

/-- Outcome of one call to the external Nominatim geocoding provider
(`self.geocoder.geocode(query, timeout=10)`):
`found` = a location object; `notFound` = `None`; `error` = a raised
exception (timeout or provider error). -/
inductive GeoOutcome where
  | found (lat lon : ℚ) : GeoOutcome
  | notFound : GeoOutcome
  | error : GeoOutcome
deriving DecidableEq

/-- The address substitution at the head of
`DetailedAmenityAnalyzer.geocode_address`
(src/detailed_amenity_analyzer.py lines 76-77): an empty or whitespace
address is replaced by `location_search + ', NY'` as the first query
text.  Python's `not address or address.strip() == ''` is an
empty-or-all-whitespace test, modelled character-wise. -/
def effective_address (address location_search : String) : String :=
  if address = "" || address.data.all Char.isWhitespace
    then location_search ++ ", NY" else address

/-- `DetailedAmenityAnalyzer.geocode_address`
(src/detailed_amenity_analyzer.py lines 74-94), with the provider passed
in as an oracle `g`.  Returns the `(lat, lon)` pair — `(none, none)`
models the `return None, None` — together with the list of queries
actually sent to the provider, in order.

Control flow from the source: an exception in either lookup is caught by
the single `except` around both and falls through to `return None, None`
(so an exception in the first lookup prevents the fallback); the fallback
lookup runs only when the first lookup returned `None` and the (possibly
replaced) address differs from `location_search`, and always queries
`location_search + ', NY'`. -/
def geocode_address (g : String → GeoOutcome) (address location_search : String) :
    (Option ℚ × Option ℚ) × List String :=
  let address' := effective_address address location_search
  match g address' with
  | .found lat lon => ((some lat, some lon), [address'])
  | .error => ((none, none), [address'])
  | .notFound =>
    if address' ≠ location_search then
      match g (location_search ++ ", NY") with
      | .found lat lon => ((some lat, some lon), [address', location_search ++ ", NY"])
      | _ => ((none, none), [address', location_search ++ ", NY"])
    else ((none, none), [address'])

/-- `math.radians`: degrees to radians. -/
noncomputable def radians (x : ℝ) : ℝ := x * Real.pi / 180

/-- `math.atan2 y x`, i.e. the argument of the complex number `x + y*i`
(both functions agree everywhere, including `atan2 0 0 = 0`). -/
noncomputable def atan2 (y x : ℝ) : ℝ := Complex.arg ⟨x, y⟩

/-- `DetailedAmenityAnalyzer.calculate_distance`
(src/detailed_amenity_analyzer.py lines 138-152): haversine great-circle
distance in meters, Earth radius 6371000 m, via
`c = 2 * atan2(sqrt(a), sqrt(1-a))`.  Modelled over the exact reals. -/
noncomputable def calculate_distance (lat1 lon1 lat2 lon2 : ℝ) : ℝ :=
  let R : ℝ := 6371000
  let lat1_rad := radians lat1
  let lat2_rad := radians lat2
  let delta_lat := radians (lat2 - lat1)
  let delta_lon := radians (lon2 - lon1)
  let a := Real.sin (delta_lat/2) * Real.sin (delta_lat/2) +
    Real.cos lat1_rad * Real.cos lat2_rad *
    Real.sin (delta_lon/2) * Real.sin (delta_lon/2)
  let c := 2 * atan2 (Real.sqrt a) (Real.sqrt (1 - a))
  R * c

/-- The single Overpass request built by `get_amenity_details`
(src/detailed_amenity_analyzer.py lines 98-107), modelled structurally:
`tagPattern` is the regex alternation `'|'.join(osm_tags)` that appears in
both the `node` and `way` clauses of the query, and `radius` the
`around:` radius in meters. -/
structure OverpassRequest where
  tagPattern : String
  radius : ℕ
deriving DecidableEq

/-- One element of the Overpass JSON reply; the code reads an element's
coordinates only when both the `'lat'` and `'lon'` keys are present
(line 123), hence the optional fields. -/
structure OsmElement where
  lat? : Option ℝ
  lon? : Option ℝ

/-- Outcome of one Overpass HTTP call: `ok` = status 200 with parsed
elements; `httpError` = a non-200 status (the `if` at line 113 falls
through to `return 0, None`); `exception` = a raised request
exception/timeout (caught at line 133, same result). -/
inductive QueryOutcome where
  | ok (elements : List OsmElement) : QueryOutcome
  | httpError : QueryOutcome
  | exception : QueryOutcome

/-- `DetailedAmenityAnalyzer.get_amenity_details`
(src/detailed_amenity_analyzer.py lines 96-136), with the Overpass
provider passed in as an oracle.  Returns the `(count, closest_distance)`
pair together with the list of requests issued — exactly one per call.
`count` is the number of elements carrying coordinates, and
`closest_distance = min(distances) if distances else None`. -/
noncomputable def get_amenity_details (provider : OverpassRequest → QueryOutcome)
    (lat lon : ℝ) (osm_tags : List String) (radius : ℕ) :
    (ℕ × Option ℝ) × List OverpassRequest :=
  let req : OverpassRequest := ⟨String.intercalate "|" osm_tags, radius⟩
  (match provider req with
   | .ok elements =>
     if elements.isEmpty then (0, none)
     else
       let distances := elements.filterMap (fun e =>
         match e.lat?, e.lon? with
         | some la, some lo => some (calculate_distance lat lon la lo)
         | _, _ => none)
       (distances.length, distances.min?)
   | .httpError => (0, none)
   | .exception => (0, none),
   [req])

/-- An input property row of the detailed analyzer: the loop reads
`prop.get('address', '')` and `prop.get('location_search', '')`
(src/detailed_amenity_analyzer.py lines 169-170). -/
structure PropRow where
  address : String
  location_search : String
deriving DecidableEq

/-- The emission of a category's closest distance at line 190:
`round(closest_distance, 0) if closest_distance else None` — the float
`0.0` is falsy, so an exact zero distance is emitted as `None`. -/
noncomputable def emitClosest : Option ℝ → Option ℝ
  | none => none
  | some d => if d = 0 then none else some ((roundHalfEven d : ℝ))

/-- One enriched output record of `DetailedAmenityAnalyzer.analyze_properties`
(src/detailed_amenity_analyzer.py lines 174-207): the copied input row,
the rounded coordinates (`none` models the empty strings written on
geocoding failure), the per-category `(key, count, closest_distance)`
entries in catalog order, and the terminal total.  The wall-clock
`analysis_date` field is omitted (real time is outside the model). -/
structure EnhancedProp where
  base : PropRow
  latitude : Option ℚ
  longitude : Option ℚ
  perCategory : List (String × ℕ × Option ℝ)
  total_amenities_count : ℕ
  analysis_radius : ℕ

/-- `self.amenity_types` of `DetailedAmenityAnalyzer`
(src/detailed_amenity_analyzer.py lines 28-59): the ordered catalog
mapping each detailed category to its OSM tag alternatives. -/
def amenity_types : List (String × List String) :=
  [("elementary_school", ["school", "kindergarten"]),
   ("middle_school", ["school"]),
   ("high_school", ["school"]),
   ("university", ["university", "college"]),
   ("subway_station", ["subway_entrance", "railway_station"]),
   ("bus_stop", ["bus_station", "bus_stop"]),
   ("train_station", ["railway_station"]),
   ("gym", ["gym", "fitness_centre"]),
   ("fitness_center", ["fitness_centre", "sports_centre"]),
   ("hospital", ["hospital"]),
   ("clinic", ["clinic", "doctors"]),
   ("pharmacy", ["pharmacy"]),
   ("park", ["park"]),
   ("playground", ["playground"]),
   ("sports_facility", ["sports_centre", "stadium"]),
   ("museum", ["museum"]),
   ("theater", ["theatre", "cinema"]),
   ("library", ["library"]),
   ("supermarket", ["supermarket"]),
   ("convenience_store", ["convenience"]),
   ("shopping_mall", ["mall"]),
   ("bank", ["bank"]),
   ("atm", ["atm"]),
   ("post_office", ["post_office"]),
   ("restaurant", ["restaurant"]),
   ("fast_food", ["fast_food"]),
   ("cafe", ["cafe"]),
   ("bar", ["bar", "pub"]),
   ("police_station", ["police"]),
   ("fire_station", ["fire_station"])]

/-- The body of the per-listing loop of
`DetailedAmenityAnalyzer.analyze_properties`
(src/detailed_amenity_analyzer.py lines 165-209), for one property and
its geocoding result; the Overpass provider is an oracle.  On the truthy
branch (`if lat and lon:`) each catalog category gets one
`get_amenity_details` call; on the falsy branch every category gets the
zero/absent defaults (lines 199-206). -/
noncomputable def analyze_one_property (provider : OverpassRequest → QueryOutcome)
    (geo : Option ℚ × Option ℚ) (prop : PropRow) : EnhancedProp :=
  match geo with
  | (some lat, some lon) =>
    if lat ≠ 0 ∧ lon ≠ 0 then
      let results := amenity_types.map (fun c =>
        (c.1, (get_amenity_details provider (lat : ℝ) (lon : ℝ) c.2 1000).1))
      { base := prop
        latitude := some (pyRound lat 6)
        longitude := some (pyRound lon 6)
        perCategory := results.map (fun r => (r.1, r.2.1, emitClosest r.2.2))
        total_amenities_count := (results.map (fun r => r.2.1)).sum
        analysis_radius := 1000 }
    else
      { base := prop
        latitude := none
        longitude := none
        perCategory := amenity_types.map (fun c => (c.1, 0, none))
        total_amenities_count := 0
        analysis_radius := 1000 }
  | _ =>
    { base := prop
      latitude := none
      longitude := none
      perCategory := amenity_types.map (fun c => (c.1, 0, none))
      total_amenities_count := 0
      analysis_radius := 1000 }

/-- `DetailedAmenityAnalyzer.analyze_properties`
(src/detailed_amenity_analyzer.py lines 154-212): processes the first
`max_properties` loaded properties in order; every processed property —
geocoded or not — contributes exactly one enhanced record. -/
noncomputable def analyze_properties (g : String → GeoOutcome)
    (provider : OverpassRequest → QueryOutcome)
    (properties : List PropRow) (max_properties : ℕ) : List EnhancedProp :=
  (properties.take max_properties).map (fun prop =>
    analyze_one_property provider
      (geocode_address g prop.address prop.location_search).1 prop)

/-- `math.atan2 0 1 = 0`: the argument of the complex number `1`. -/
theorem atan2_zero_one : atan2 0 1 = 0 := by
  unfold atan2
  have h : (⟨1, 0⟩ : ℂ) = 1 := Complex.ext rfl rfl
  rw [h, Complex.arg_one]

/-- The haversine distance from a point to itself is exactly zero. -/
theorem calculate_distance_self (lat lon : ℝ) : calculate_distance lat lon lat lon = 0 := by
  simp only [calculate_distance]
  simp [radians, atan2_zero_one]

/-- The haversine distance is exactly symmetric in its two endpoints. -/
theorem calculate_distance_symm (lat1 lon1 lat2 lon2 : ℝ) :
    calculate_distance lat1 lon1 lat2 lon2 = calculate_distance lat2 lon2 lat1 lon1 := by
  simp only [calculate_distance]
  have hs : ∀ x y : ℝ,
      Real.sin (radians (x - y) / 2) * Real.sin (radians (x - y) / 2)
        = Real.sin (radians (y - x) / 2) * Real.sin (radians (y - x) / 2) := by
    intro x y
    have h : radians (x - y) / 2 = -(radians (y - x) / 2) := by unfold radians; ring
    rw [h, Real.sin_neg]; ring
  have hprod : ∀ c1 c2 x y : ℝ,
      c1 * c2 * Real.sin (radians (x - y) / 2) * Real.sin (radians (x - y) / 2)
        = c2 * c1 * Real.sin (radians (y - x) / 2) * Real.sin (radians (y - x) / 2) := by
    intro c1 c2 x y
    have h : radians (x - y) / 2 = -(radians (y - x) / 2) := by unfold radians; ring
    rw [h, Real.sin_neg]; ring
  rw [hs lat2 lat1, hprod (Real.cos (radians lat1)) (Real.cos (radians lat2)) lon2 lon1]

/-- At the pole, two coordinates that differ only in longitude are at
haversine distance exactly zero: `cos(radians 90) = 0` kills the
longitude term. -/
theorem calculate_distance_pole : calculate_distance 90 0 90 50 = 0 := by
  have h90 : (90 : ℝ) * Real.pi / 180 = Real.pi / 2 := by ring
  simp only [calculate_distance]
  simp [radians, h90, Real.cos_pi_div_two, atan2_zero_one]

/-- When the Overpass reply holds exactly one element, located at the
query center itself, `get_amenity_details` computes `(1, some 0)`:
count one, closest distance exactly `0.0`. -/
theorem get_amenity_details_center (provider : OverpassRequest → QueryOutcome)
    (lat lon : ℝ) (osm_tags : List String) (radius : ℕ)
    (h : provider ⟨String.intercalate "|" osm_tags, radius⟩ = .ok [⟨some lat, some lon⟩]) :
    (get_amenity_details provider lat lon osm_tags radius).1 = (1, some 0) := by
  simp only [get_amenity_details]
  rw [h]
  simp [List.filterMap, calculate_distance_self, List.min?]

/-- C4: for every listing whose geocoding fails — `geocode_address`
returned `(None, None)` — the emitted detailed profile has
`total_amenities_count = 0` and carries, for every catalog category, a
count of `0` and an absent closest distance
(src/detailed_amenity_analyzer.py lines 198-207). -/
theorem C4_geocode_failure_all_defaults (provider : OverpassRequest → QueryOutcome)
    (prop : PropRow) :
    (analyze_one_property provider (none, none) prop).total_amenities_count = 0 ∧
    (analyze_one_property provider (none, none) prop).perCategory
      = amenity_types.map (fun c => (c.1, 0, none)) :=
  ⟨rfl, rfl⟩

/-- C9 (amended): the haversine distance is exactly symmetric and the
distance from any coordinate to itself is exactly `0`; however — see the
counterexample — `distance a b = 0` does not imply `a = b`. -/
theorem C9_distance_symm_and_self_zero :
    (∀ lat1 lon1 lat2 lon2 : ℝ,
      calculate_distance lat1 lon1 lat2 lon2 = calculate_distance lat2 lon2 lat1 lon1) ∧
    (∀ lat lon : ℝ, calculate_distance lat lon lat lon = 0) :=
  ⟨calculate_distance_symm, calculate_distance_self⟩

/-- C9 counterexample: the two distinct valid coordinates `(90, 0)` and
`(90, 50)` (both at the north pole) are at haversine distance exactly
`0`, refuting `distance(a,b) = 0 ↔ a = b`. -/
theorem C9_counterexample :
    calculate_distance 90 0 90 50 = 0 ∧ ((90 : ℝ), (0 : ℝ)) ≠ ((90 : ℝ), (50 : ℝ)) :=
  ⟨calculate_distance_pole, by norm_num [Prod.ext_iff]⟩

/-- C7 (amended): the detailed query client issues exactly one Overpass
request per category, whose tag pattern is the `|`-alternation (OR) of
all the category's tags; the rated variant instead issues one Places
request per tag — `types` requests for a category with `types` tags. -/
theorem C7_queries_per_category :
    (∀ (provider : OverpassRequest → QueryOutcome) (lat lon : ℝ)
       (osm_tags : List String) (radius : ℕ),
      (get_amenity_details provider lat lon osm_tags radius).2
        = [⟨String.intercalate "|" osm_tags, radius⟩]) ∧
    (∀ (search : String → List Amenity) (types : List String),
      (collectCategoryAmenities search types).2 = types) := by
  constructor
  · intro provider lat lon osm_tags radius
    rfl
  · intro search types
    rw [collectCategoryAmenities_eq]

/-- C7 counterexample: for the rated catalog's `schools` category (three
tags), the collection loop issues three external queries, not one. -/
theorem C7_counterexample :
    ("schools", ["school", "elementary_school", "secondary_school"]) ∈ amenity_categories ∧
    (collectCategoryAmenities (fun _ => [])
        ["school", "elementary_school", "secondary_school"]).2.length = 3 ∧
    (3 : ℕ) ≠ 1 :=
  ⟨by decide, rfl, by decide⟩

/-- C1 (amended): the detailed analyzer's profiles carry exactly the
catalog's category keys in catalog order for every listing, geocoded or
not; the rated analyzer guarantees this only when geocoding succeeds —
on failure it returns an `{'error': ...}` record with no category keys
(see the counterexample). -/
theorem C1_profile_has_catalog_keys :
    (∀ (provider : OverpassRequest → QueryOutcome) (geo : Option ℚ × Option ℚ)
       (prop : PropRow),
      (analyze_one_property provider geo prop).perCategory.map Prod.fst
        = amenity_types.map Prod.fst) ∧
    (∀ (search : String → List Amenity) (coordinates : ℚ × ℚ),
      ratedCategoryKeys
          (analyze_property_amenities amenity_categories (some coordinates) search)
        = amenity_categories.map Prod.fst) := by
  constructor
  · intro provider geo prop
    rcases geo with ⟨l, o⟩
    cases l with
    | none => rfl
    | some lat =>
      cases o with
      | none => rfl
      | some lon =>
        simp only [analyze_one_property]
        split_ifs <;> simp [List.map_map, Function.comp]
  · intro search coordinates
    rfl

/-- C1 counterexample: on geocoding failure the rated analyzer's record
is the error record, which carries none of the catalog's category keys. -/
theorem C1_counterexample :
    analyze_property_amenities amenity_categories none (fun _ => [])
      = .geocodeError ∧
    ratedCategoryKeys RatedOutcome.geocodeError = [] ∧
    amenity_categories.map Prod.fst ≠ [] :=
  ⟨rfl, rfl, by decide⟩

/-- C2 (amended): the batch loops always complete and emit exactly one
record per processed input row, a listing that fails geocoding included —
but the rated CSV loop skips rows with an empty address, and the detailed
loop processes only the first `max_properties` rows. -/
theorem C2_one_record_per_processed_row :
    (∀ (geocode : String → Option (ℚ × ℚ)) (search : String → List Amenity)
       (rows : List CsvRow),
      (analyze_csv_properties geocode search rows).length
        = (rows.filter (fun row => !(row.address == ""))).length) ∧
    (∀ (g : String → GeoOutcome) (provider : OverpassRequest → QueryOutcome)
       (properties : List PropRow) (max_properties : ℕ),
      (analyze_properties g provider properties max_properties).length
        = min properties.length max_properties) ∧
    (∀ (g : String → GeoOutcome) (provider : OverpassRequest → QueryOutcome)
       (properties : List PropRow) (max_properties : ℕ) (prop : PropRow),
      prop ∈ properties.take max_properties →
      analyze_one_property provider
          (geocode_address g prop.address prop.location_search).1 prop
        ∈ analyze_properties g provider properties max_properties) := by
  refine ⟨?_, ?_, ?_⟩
  · intro geocode search rows
    induction rows with
    | nil => rfl
    | cons r rs ih =>
      simp only [analyze_csv_properties, List.filterMap_cons, List.filter_cons] at *
      by_cases h : r.address = "" <;> simp [h, ih]
  · intro g provider properties max_properties
    simp [analyze_properties, Nat.min_comm]
  · intro g provider properties max_properties prop hmem
    exact List.mem_map_of_mem _ hmem

/-- C2 counterexample: a one-row input whose address is empty produces
zero output records in the rated CSV loop, and a two-row input with
`max_properties = 1` produces one output record in the detailed loop —
in both cases fewer records than input rows. -/
theorem C2_counterexample :
    (analyze_csv_properties (fun _ => none) (fun _ => []) [⟨""⟩]).length = 0 ∧
    (0 : ℕ) ≠ 1 ∧
    (analyze_properties (fun _ => .notFound) (fun _ => .httpError)
        [⟨"a", "b"⟩, ⟨"c", "d"⟩] 1).length = 1 ∧
    (1 : ℕ) ≠ 2 :=
  ⟨rfl, by decide, rfl, by decide⟩

/-- C2 witness: concrete instantiation — a processed row's record is in
the detailed loop's output. -/
theorem C2_witness :
    analyze_one_property (fun _ => QueryOutcome.httpError)
        (geocode_address (fun _ => GeoOutcome.notFound) "a" "b").1 ⟨"a", "b"⟩
      ∈ analyze_properties (fun _ => GeoOutcome.notFound)
          (fun _ => QueryOutcome.httpError) [⟨"a", "b"⟩] 1 :=
  C2_one_record_per_processed_row.2.2 _ _ [⟨"a", "b"⟩] 1 ⟨"a", "b"⟩ (by simp)

/-- C3 (amended): the geocoder issues at most two lookups; the first
query text substitutes `location_search + ', NY'` (not the bare hint) for
an empty or whitespace address; the fallback lookup — always with query
text `location_search + ', NY'` — happens exactly when the first lookup
returned no result (not on a provider exception, which is caught and ends
the attempt sequence) and the effective first query differed from
`location_search`; a first-lookup provider error yields the failure value
with no retry; a first-lookup success returns its coordinate.  The
function is total: no exception escapes. -/
theorem C3_geocode_algorithm (g : String → GeoOutcome) (address location_search : String) :
    ((geocode_address g address location_search).2.length ≤ 2) ∧
    ((geocode_address g address location_search).2 =
      if g (effective_address address location_search) = .notFound
          ∧ effective_address address location_search ≠ location_search
        then [effective_address address location_search, location_search ++ ", NY"]
        else [effective_address address location_search]) ∧
    (g (effective_address address location_search) = .error →
      (geocode_address g address location_search).1 = (none, none)) ∧
    (∀ lat lon, g (effective_address address location_search) = .found lat lon →
      (geocode_address g address location_search).1 = (some lat, some lon)) := by
  cases hg : g (effective_address address location_search) with
  | found lat lon => simp [geocode_address, hg]
  | error => simp [geocode_address, hg]
  | notFound =>
    by_cases hne : effective_address address location_search = location_search
    · rw [hne] at hg
      simp [geocode_address, hg, hne]
    · cases hg2 : g (location_search ++ ", NY") <;> simp [geocode_address, hg, hg2, hne]

/-- C3 witness: concrete instantiation — a successful first lookup
returns its coordinate after one query. -/
theorem C3_witness :
    (geocode_address (fun _ => GeoOutcome.found 40 (-74)) "150 River St" "Hoboken").1
      = (some 40, some (-74)) :=
  (C3_geocode_algorithm (fun _ => GeoOutcome.found 40 (-74)) "150 River St" "Hoboken").2.2.2
    40 (-74) rfl

/-- C3 counterexample: (i) a provider error on the first lookup ends the
sequence after a single query — no retry with the location hint, although
the address differs from the hint; (ii) for an empty address the first
query text is `'Hoboken, NY'`, not the hint `'Hoboken'`, and the fallback
then re-issues the identical query. -/
theorem C3_counterexample :
    geocode_address (fun _ => GeoOutcome.error) "150 River St" "Hoboken"
      = ((none, none), ["150 River St"]) ∧
    (geocode_address (fun _ => GeoOutcome.notFound) "" "Hoboken").2
      = ["Hoboken, NY", "Hoboken, NY"] :=
  ⟨rfl, rfl⟩

/-- C10: in the detailed analyzer, a category whose computed nearest
distance is exactly `0.0` (an amenity point at the listing's own
coordinate) is emitted with an absent closest-distance field even though
its count is at least `1`, because `round(closest_distance, 0) if
closest_distance else None` treats the float `0.0` as missing.
Conjuncts: (i) a reply holding exactly the listing's own coordinate
computes `(count, closest) = (1, some 0)`; (ii) a `some`-valued closest
distance forces count ≥ 1; (iii) a category computing closest `some 0` is
emitted in the profile with its count and an absent distance. -/
theorem C10_zero_distance_emitted_absent :
    (∀ (provider : OverpassRequest → QueryOutcome) (lat lon : ℝ)
       (osm_tags : List String) (radius : ℕ),
      provider ⟨String.intercalate "|" osm_tags, radius⟩ = .ok [⟨some lat, some lon⟩] →
      (get_amenity_details provider lat lon osm_tags radius).1 = (1, some 0)) ∧
    (∀ (provider : OverpassRequest → QueryOutcome) (lat lon : ℝ)
       (osm_tags : List String) (radius : ℕ),
      (get_amenity_details provider lat lon osm_tags radius).1.2 = some 0 →
      1 ≤ (get_amenity_details provider lat lon osm_tags radius).1.1) ∧
    (∀ (provider : OverpassRequest → QueryOutcome) (prop : PropRow) (lat lon : ℚ)
       (k : String) (tags : List String),
      (k, tags) ∈ amenity_types → lat ≠ 0 → lon ≠ 0 →
      (get_amenity_details provider (lat : ℝ) (lon : ℝ) tags 1000).1.2 = some 0 →
      (k, (get_amenity_details provider (lat : ℝ) (lon : ℝ) tags 1000).1.1,
          (none : Option ℝ))
        ∈ (analyze_one_property provider (some lat, some lon) prop).perCategory) := by
  refine ⟨get_amenity_details_center, ?_, ?_⟩
  · intro provider lat lon osm_tags radius
    simp only [get_amenity_details]
    cases provider ⟨String.intercalate "|" osm_tags, radius⟩ with
    | ok elements =>
      by_cases he : elements.isEmpty
      · simp [he]
      · simp only [he, if_neg, Bool.false_eq_true, not_false_eq_true, if_false]
        cases helts : elements.filterMap (fun e =>
            match e.lat?, e.lon? with
            | some la, some lo => some (calculate_distance lat lon la lo)
            | _, _ => none) with
        | nil => simp [List.min?]
        | cons d ds => simp
    | httpError => simp
    | exception => simp
  · intro provider prop lat lon k tags hmem hlat hlon hzero
    simp only [analyze_one_property]
    rw [if_pos (show lat ≠ 0 ∧ lon ≠ 0 from ⟨hlat, hlon⟩)]
    simp only [List.map_map]
    have h := List.mem_map_of_mem
      ((fun r : String × ℕ × Option ℝ => (r.1, r.2.1, emitClosest r.2.2)) ∘
        (fun c : String × List String =>
          (c.1, (get_amenity_details provider (lat : ℝ) (lon : ℝ) c.2 1000).1))) hmem
    simpa [emitClosest, hzero] using h

/-- C10 witness: concrete instantiation — one provider element at the
listing's own coordinate yields `(1, some 0)`, and the `park` category is
emitted with count `1` and an absent closest distance. -/
theorem C10_witness :
    (get_amenity_details
        (fun _ => QueryOutcome.ok [⟨some ((40 : ℚ) : ℝ), some (((-74) : ℚ) : ℝ)⟩])
        ((40 : ℚ) : ℝ) (((-74) : ℚ) : ℝ) ["park"] 1000).1 = (1, some 0) ∧
    ("park",
      (get_amenity_details
        (fun _ => QueryOutcome.ok [⟨some ((40 : ℚ) : ℝ), some (((-74) : ℚ) : ℝ)⟩])
        ((40 : ℚ) : ℝ) (((-74) : ℚ) : ℝ) ["park"] 1000).1.1, (none : Option ℝ))
      ∈ (analyze_one_property
          (fun _ => QueryOutcome.ok [⟨some ((40 : ℚ) : ℝ), some (((-74) : ℚ) : ℝ)⟩])
          (some 40, some (-74)) ⟨"a", "b"⟩).perCategory := by
  have h1 := C10_zero_distance_emitted_absent.1
    (fun _ => QueryOutcome.ok [⟨some ((40 : ℚ) : ℝ), some (((-74) : ℚ) : ℝ)⟩])
    ((40 : ℚ) : ℝ) (((-74) : ℚ) : ℝ) ["park"] 1000 rfl
  refine ⟨h1, C10_zero_distance_emitted_absent.2.2 _ ⟨"a", "b"⟩ 40 (-74) "park" ["park"]
    (by decide) (by norm_num) (by norm_num) (by rw [h1])⟩

/-- C5 (amended): for a non-empty category point set the rated policy
emits `count = |points|`, an average rating equal to the mean of the
ratings (missing treated as `0`) rounded to 2 decimals, and a category
score of `round(count * 0.3 + mean * 0.7, 2)` computed from the
*unrounded* mean (not from the rounded emitted average — see the
counterexample); the spec scenario (2 points rated 4.0 and 4.4 giving
average 4.2 and score 3.54) holds. -/
theorem C5_rated_category_policy :
    (∀ pts : List Amenity, pts ≠ [] →
      categoryAggregate pts
        = (pts.length,
           pyRound ((pts.map (fun a => a.rating.getD 0)).sum / (pts.length : ℚ)) 2,
           pyRound ((pts.length : ℚ) * (3/10)
             + ((pts.map (fun a => a.rating.getD 0)).sum / (pts.length : ℚ)) * (7/10)) 2)) ∧
    categoryAggregate [⟨some 4⟩, ⟨some (22/5)⟩] = (2, 21/5, 177/50) := by
  refine ⟨?_, categoryAggregate_scenario⟩
  intro pts h
  have h' : pts.isEmpty = false := by simpa using h
  unfold categoryAggregate
  rw [h']
  rfl

/-- C5 witness: concrete instantiation at a one-point category. -/
theorem C5_witness :
    (([⟨some 4⟩] : List Amenity) ≠ []) ∧
    categoryAggregate [⟨some 4⟩]
      = (([⟨some 4⟩] : List Amenity).length,
         pyRound ((([⟨some 4⟩] : List Amenity).map (fun a => a.rating.getD 0)).sum
           / ((([⟨some 4⟩] : List Amenity).length : ℕ) : ℚ)) 2,
         pyRound (((([⟨some 4⟩] : List Amenity).length : ℕ) : ℚ) * (3/10)
           + ((([⟨some 4⟩] : List Amenity).map (fun a => a.rating.getD 0)).sum
             / ((([⟨some 4⟩] : List Amenity).length : ℕ) : ℚ)) * (7/10)) 2) :=
  ⟨by simp, C5_rated_category_policy.1 [⟨some 4⟩] (by simp)⟩

/-- C5 counterexample: a single point rated `0.4929`.  The code emits the
average rating `0.49` (mean rounded to 2 decimals) and the score `0.65` =
`round(1*0.3 + 0.4929*0.7, 2)` from the unrounded mean, whereas the
claim's formula `round(count*0.3 + averageRating*0.7, 2)` applied to the
emitted (rounded) average rating `0.49` yields `0.64 ≠ 0.65`. -/
theorem C5_counterexample :
    categoryAggregate [⟨some (4929/10000)⟩] = (1, 49/100, 13/20) ∧
    pyRound ((1 : ℚ) * (3/10) + (49/100) * (7/10)) 2 = 16/25 ∧
    (13/20 : ℚ) ≠ 16/25 := by
  refine ⟨?_, ?_, by norm_num⟩
  · simp only [categoryAggregate, List.isEmpty_cons, List.map_cons, List.map_nil,
      List.sum_cons, List.sum_nil, List.length_cons, List.length_nil, Option.getD_some]
    norm_num [pyRound]
    constructor
    · rw [roundHalfEven_of_lt _ 49 (by norm_num) (by norm_num)]
      norm_num
    · rw [roundHalfEven_of_gt _ 64 (by norm_num) (by norm_num) (by norm_num)]
      norm_num
  · unfold pyRound
    rw [show ((1 : ℚ) * (3/10) + (49/100) * (7/10)) * 10 ^ 2 = 643/10 by norm_num,
      roundHalfEven_of_lt _ 64 (by norm_num) (by norm_num)]
    norm_num

/-- The composite score of a category whose points all carry nonnegative
ratings is nonnegative. -/
theorem categoryAggregate_score_nonneg (pts : List Amenity)
    (h : ∀ a ∈ pts, 0 ≤ a.rating.getD 0) : 0 ≤ (categoryAggregate pts).2.2 := by
  by_cases he : pts.isEmpty
  · unfold categoryAggregate
    rw [he]
    norm_num
  · have h' : pts.isEmpty = false := by simpa using he
    unfold categoryAggregate
    rw [h']
    simp only [Bool.false_eq_true, if_false]
    apply pyRound_nonneg
    have hsum : 0 ≤ (pts.map (fun a => a.rating.getD 0)).sum := by
      apply List.sum_nonneg
      intro x hx
      obtain ⟨a, ha, rfl⟩ := List.mem_map.mp hx
      exact h a ha
    have havg : 0 ≤ (pts.map (fun a => a.rating.getD 0)).sum / (pts.length : ℚ) :=
      div_nonneg hsum (by positivity)
    have hc : (0 : ℚ) ≤ (pts.length : ℚ) * (3/10) := by positivity
    nlinarith

/-- C6 (amended): for a non-empty catalog and a geocoded listing, the
rated analyzer emits a scores record whose overall score is the mean of
exactly `len(catalog)` category scores rounded to 2 decimals, each score
nonnegative whenever the provider's ratings are nonnegative.  The
initializer performs no catalog validation and raises no configuration
error; with an empty catalog the failure instead occurs at
score-computation time (see the counterexample). -/
theorem C6_overall_score (catalog : List (String × List String))
    (coordinates : ℚ × ℚ) (search : String → List Amenity)
    (hcat : catalog ≠ [])
    (hpos : ∀ t a, a ∈ search t → 0 ≤ a.rating.getD 0) :
    ∃ perCategory overall,
      analyze_property_amenities catalog (some coordinates) search
        = .scores perCategory overall ∧
      perCategory.length = catalog.length ∧
      overall
        = pyRound ((perCategory.map (fun e => e.2.2.2)).sum / (catalog.length : ℚ)) 2 ∧
      ∀ e ∈ perCategory, 0 ≤ e.2.2.2 := by
  let F : String × List String → String × ℕ × ℚ × ℚ :=
    fun c => (c.1, categoryAggregate (collectCategoryAmenities search c.2).1)
  have hne : ¬ (((catalog.map F).map (fun e => e.2.2.2)).length = 0) := by
    simpa [List.length_eq_zero] using hcat
  refine ⟨catalog.map F,
    pyRound (((catalog.map F).map (fun e => e.2.2.2)).sum
      / (((catalog.map F).map (fun e => e.2.2.2)).length : ℚ)) 2, ?_, ?_, ?_, ?_⟩
  · simp only [analyze_property_amenities]
    rw [if_neg hne]
  · simp
  · simp
  · intro e he
    obtain ⟨c, hc, rfl⟩ := List.mem_map.mp he
    show 0 ≤ (categoryAggregate (collectCategoryAmenities search c.2).1).2.2
    apply categoryAggregate_score_nonneg
    intro a ha
    rw [collectCategoryAmenities_eq] at ha
    simp only at ha
    obtain ⟨t, ht, hat⟩ := List.mem_flatMap.mp ha
    exact hpos t a hat

/-- C6 witness: concrete instantiation at the source catalog with a
provider returning no places. -/
theorem C6_witness :
    ∃ perCategory overall,
      analyze_property_amenities amenity_categories (some (40, -74)) (fun _ => [])
        = .scores perCategory overall ∧
      perCategory.length = amenity_categories.length ∧
      overall
        = pyRound ((perCategory.map (fun e => e.2.2.2)).sum
            / (amenity_categories.length : ℚ)) 2 ∧
      ∀ e ∈ perCategory, 0 ≤ e.2.2.2 :=
  C6_overall_score amenity_categories (40, -74) (fun _ => []) (by decide) (by simp)

/-- C6 counterexample: with an empty catalog the initializer-free model
reaches the score computation and fails there — `crash` models the
`ZeroDivisionError` of `sum(category_scores) / len(category_scores)` —
rather than any configuration error at startup (the constructor at
src/amenity_analyzer.py lines 19-40 performs no validation and cannot
raise). -/
theorem C6_counterexample :
    analyze_property_amenities [] (some (40, -74)) (fun _ => []) = .crash := rfl
